import Mathlib

/-! Verification of the credential-store subsystem of the tembo-discord-bot
repository: the envelope-encryption primitive (`EncryptionService`), the
record store (`DatabaseService`) and the authentication orchestrator
(`AuthService`).

Modelling conventions:
* Byte strings (`Uint8Array` values) are `List Nat` with every element below
  256.  Plaintext and identity strings enter the encryption layer through
  `TextEncoder` (UTF-8); since UTF-8 encoding is an injective map with a
  left inverse, plaintexts and identities are modelled directly as their
  byte sequences.
* The `btoa`/`atob` pair used by `arrayBufferToBase64`/`base64ToArrayBuffer`
  is modelled at the sextet level: `b64EncodeBytes` produces the list of
  6-bit values (with 64 standing for the padding character) and
  `b64DecodeBytes` parses it back, failing on malformed input, exactly as
  `atob` throws on malformed base64.  The fixed bijection between sextet
  values and the base64 alphabet characters is elided.
* `crypto.subtle` (AES-256-GCM with PBKDF2 key derivation) is external
  library code, modelled as an ideal authenticated cipher: PBKDF2 is an
  ideal (collision-free) KDF, so a derived key is the pair
  (master key, salt); the GCM tag is an ideal MAC, so it is the tuple
  (key, iv, aad, body); the CTR body is the XOR of the plaintext with a
  concrete keystream, which is all the round-trip and binding properties
  need.  The byte serialization of the GCM output (body plus tag) is kept
  abstract, so the `ciphertext` field of `EncryptedData` holds the GCM
  output itself rather than its base64 encoding, while `iv` and `salt` go
  through the real base64 model.
-/

namespace TemboBot

/-- Base64 encoding of a byte list at the sextet level, mirroring
`EncryptionService.arrayBufferToBase64` (bytes → binary string → `btoa`).
The value 64 stands for the `=` padding character. -/
def b64EncodeBytes : List Nat → List Nat
  | [] => []
  | [a] => [a / 4, a % 4 * 16, 64, 64]
  | [a, b] => [a / 4, a % 4 * 16 + b / 16, b % 16 * 4, 64]
  | a :: b :: c :: rest =>
      a / 4 :: (a % 4 * 16 + b / 16) :: (b % 16 * 4 + c / 64) :: c % 64 :: b64EncodeBytes rest

/-- Base64 decoding at the sextet level, mirroring
`EncryptionService.base64ToArrayBuffer` (`atob` → char codes → bytes);
`none` models `atob` throwing on malformed input. -/
def b64DecodeBytes : List Nat → Option (List Nat)
  | [] => some []
  | s0 :: s1 :: s2 :: s3 :: rest =>
      if s0 < 64 ∧ s1 < 64 then
        if s2 = 64 then
          if s3 = 64 ∧ rest = [] then some [s0 * 4 + s1 / 16] else none
        else if s2 < 64 then
          if s3 = 64 then
            if rest = [] then some [s0 * 4 + s1 / 16, s1 % 16 * 16 + s2 / 4] else none
          else if s3 < 64 then
            (b64DecodeBytes rest).map
              (fun bs => (s0 * 4 + s1 / 16) :: (s1 % 16 * 16 + s2 / 4) :: (s2 % 4 * 64 + s3) :: bs)
          else none
        else none
      else none
  | _ => none

/-- Decoding inverts encoding on genuine byte lists. -/
theorem b64_roundtrip : ∀ bs : List Nat, (∀ b ∈ bs, b < 256) →
    b64DecodeBytes (b64EncodeBytes bs) = some bs
  | [], _ => rfl
  | [x], h => by
      have hx : x < 256 := h x (by simp)
      simp only [b64EncodeBytes, b64DecodeBytes]
      simp
      omega
  | [x, y], h => by
      have hx : x < 256 := h x (by simp)
      have hy : y < 256 := h y (by simp)
      have c1 : x / 4 < 64 := by omega
      have c2 : x % 4 * 16 + y / 16 < 64 := by omega
      have c3 : ¬(y % 16 * 4 = 64) := by omega
      have c4 : y % 16 * 4 < 64 := by omega
      have e1 : x / 4 * 4 + (x % 4 * 16 + y / 16) / 16 = x := by omega
      have e2 : (x % 4 * 16 + y / 16) % 16 * 16 + y % 16 * 4 / 4 = y := by omega
      simp [b64EncodeBytes, b64DecodeBytes, c1, c2, c3, c4, e1, e2]
      omega
  | x :: y :: z :: rest, h => by
      have hx : x < 256 := h x (by simp)
      have hy : y < 256 := h y (by simp)
      have hz : z < 256 := h z (by simp)
      have hrest : ∀ b ∈ rest, b < 256 := fun b hb => h b (by simp [hb])
      have c1 : x / 4 < 64 := by omega
      have c2 : x % 4 * 16 + y / 16 < 64 := by omega
      have c3 : ¬(y % 16 * 4 + z / 64 = 64) := by omega
      have c4 : y % 16 * 4 + z / 64 < 64 := by omega
      have c5 : ¬(z % 64 = 64) := by omega
      have c6 : z % 64 < 64 := by omega
      have e1 : x / 4 * 4 + (x % 4 * 16 + y / 16) / 16 = x := by omega
      have e2 : (x % 4 * 16 + y / 16) % 16 * 16 + (y % 16 * 4 + z / 64) / 4 = y := by omega
      have e3 : (y % 16 * 4 + z / 64) % 4 * 64 + z % 64 = z := by omega
      simp [b64EncodeBytes, b64DecodeBytes, c1, c2, c3, c4, c5, c6, e1, e2, e3,
        b64_roundtrip rest hrest]

/-- A key derived by PBKDF2-HMAC-SHA256 from the master key and a salt.
PBKDF2 is idealized as a collision-free KDF, so the derived key is the
pair of its inputs. -/
structure DerivedKey where
  master : List Nat
  salt : List Nat
deriving DecidableEq

/-- Model of `EncryptionService.deriveKey`. -/
def deriveKey (master salt : List Nat) : DerivedKey := ⟨master, salt⟩

/-- One keystream byte of the idealized AES-CTR layer inside GCM; any
concrete byte-valued function of key, iv and position serves the model. -/
def keystreamByte (k : DerivedKey) (iv : List Nat) (i : Nat) : Nat :=
  (k.master.sum * 3 + k.salt.sum * 5 + iv.sum * 7 + i * 11 + 13) % 256

/-- XOR of a byte list with the keystream starting at position `i`. -/
def ctrXor (k : DerivedKey) (iv : List Nat) : Nat → List Nat → List Nat
  | _, [] => []
  | i, x :: xs => (x ^^^ keystreamByte k iv i) :: ctrXor k iv (i + 1) xs

theorem ctrXor_involutive (k : DerivedKey) (iv : List Nat) :
    ∀ i xs, ctrXor k iv i (ctrXor k iv i xs) = xs
  | _, [] => rfl
  | i, x :: xs => by
      simp [ctrXor, ctrXor_involutive k iv (i + 1) xs, Nat.xor_cancel_right]

/-- The 128-bit GCM authentication tag, idealized as a perfect MAC: the
tag determines (and is determined by) the key, iv, additional
authenticated data and ciphertext body it was computed over. -/
structure GcmTag where
  key : DerivedKey
  iv : List Nat
  aad : List Nat
  body : List Nat
deriving DecidableEq

/-- Output of `crypto.subtle.encrypt` with AES-GCM: ciphertext body with
the authentication tag appended. -/
structure GcmCiphertext where
  body : List Nat
  tag : GcmTag
deriving DecidableEq

/-- Idealized `crypto.subtle.encrypt` for AES-256-GCM. -/
def gcmEncrypt (k : DerivedKey) (iv aad pt : List Nat) : GcmCiphertext :=
  { body := ctrXor k iv 0 pt
    tag := { key := k, iv := iv, aad := aad, body := ctrXor k iv 0 pt } }

/-- Idealized `crypto.subtle.decrypt` for AES-256-GCM: recompute the tag
over the supplied key, iv, aad and received body, and fail (`none`,
modelling the thrown `OperationError`) unless it matches the received
tag. -/
def gcmDecrypt (k : DerivedKey) (iv aad : List Nat) (ct : GcmCiphertext) : Option (List Nat) :=
  if ct.tag = { key := k, iv := iv, aad := aad, body := ct.body } then
    some (ctrXor k iv 0 ct.body)
  else none

/-- Model of `EncryptedData` as produced by `EncryptionService.encryptApiKey`:
`iv` and `salt` are base64-encoded byte lists; `ciphertext` carries the
GCM output abstractly (see the header comment). -/
structure EncryptedData where
  ciphertext : GcmCiphertext
  iv : List Nat
  salt : List Nat
deriving DecidableEq

/-- Model of `EncryptionService.encryptApiKey`, with the randomly generated `salt`
and `iv` made explicit parameters. -/
def encryptApiKey (masterKey plaintext discordUserId salt iv : List Nat) : EncryptedData :=
  { ciphertext := gcmEncrypt (deriveKey masterKey salt) iv discordUserId plaintext
    iv := b64EncodeBytes iv
    salt := b64EncodeBytes salt }

/-- The single generic error message thrown by
`EncryptionService.decryptApiKey` for every failure cause. -/
def decryptionFailedMessage : String :=
  "Decryption failed. The data may be corrupted or the user ID may not match."

/-- Model of `EncryptionService.decryptApiKey`: base64-decode the stored fields,
re-derive the key from the stored salt, decrypt with the stored iv and
the supplied user id as AAD; every failure inside the `try` block is
converted to the one generic error. -/
def decryptApiKey (masterKey : List Nat) (encrypted : EncryptedData)
    (discordUserId : List Nat) : Except String (List Nat) :=
  match b64DecodeBytes encrypted.iv, b64DecodeBytes encrypted.salt with
  | some iv, some salt =>
      match gcmDecrypt (deriveKey masterKey salt) iv discordUserId encrypted.ciphertext with
      | some pt => Except.ok pt
      | none => Except.error decryptionFailedMessage
  | _, _ => Except.error decryptionFailedMessage

/-- Claim C1: for every identity and plaintext, decrypting the payload
produced by `encryptApiKey` under the same identity returns the original
plaintext, whatever fresh salt and iv the encrypt call generated. -/
theorem decrypt_encrypt_roundtrip (masterKey plaintext discordUserId salt iv : List Nat)
    (hsalt : ∀ b ∈ salt, b < 256) (hiv : ∀ b ∈ iv, b < 256) :
    decryptApiKey masterKey (encryptApiKey masterKey plaintext discordUserId salt iv)
      discordUserId = Except.ok plaintext := by
  simp [decryptApiKey, encryptApiKey, b64_roundtrip iv hiv, b64_roundtrip salt hsalt,
    gcmDecrypt, gcmEncrypt, ctrXor_involutive]

theorem decrypt_encrypt_roundtrip_witness :
    decryptApiKey [1, 2, 3] (encryptApiKey [1, 2, 3] [10, 20] [42] [7, 8] [9]) [42]
      = Except.ok [10, 20] :=
  decrypt_encrypt_roundtrip [1, 2, 3] [10, 20] [42] [7, 8] [9]
    (by decide) (by decide)

/-- Claim C2: decrypting under any identity other than the one used at
encryption time fails, and every decryption failure carries the same
single generic error message, never revealing which sub-step failed. -/
theorem decrypt_wrong_identity_fails (masterKey plaintext id1 id2 salt iv : List Nat)
    (hne : id1 ≠ id2) (hsalt : ∀ b ∈ salt, b < 256) (hiv : ∀ b ∈ iv, b < 256) :
    decryptApiKey masterKey (encryptApiKey masterKey plaintext id1 salt iv) id2
        = Except.error decryptionFailedMessage ∧
      ∀ (mk : List Nat) (e : EncryptedData) (uid : List Nat) (msg : String),
        decryptApiKey mk e uid = Except.error msg → msg = decryptionFailedMessage := by
  constructor
  · simp [decryptApiKey, encryptApiKey, b64_roundtrip iv hiv, b64_roundtrip salt hsalt,
      gcmDecrypt, gcmEncrypt, GcmTag.mk.injEq, hne]
  · intro mk e uid msg h
    unfold decryptApiKey at h
    split at h
    · split at h
      · exact Except.noConfusion h
      · injection h with h1
        exact h1.symm
    · injection h with h1
      exact h1.symm

theorem decrypt_wrong_identity_fails_witness :
    decryptApiKey [1, 2, 3] (encryptApiKey [1, 2, 3] [10, 20] [42] [7, 8] [9]) [43]
      = Except.error decryptionFailedMessage :=
  (decrypt_wrong_identity_fails [1, 2, 3] [10, 20] [42] [43] [7, 8] [9]
    (by decide) (by decide) (by decide)).1

/-! Record store (`DatabaseService`)

The D1 backend is modelled as a partial map from Discord user id to the
one credential row per identity plus the append-only `auth_events` list.
Whether each prepared statement's execution throws is captured by a
`DbFaults` flag per operation; `Date.now()` is an explicit `now`
parameter. -/

inductive ValidationStatus
  | pending
  | valid
  | invalid
deriving DecidableEq

inductive AuthEventType
  | register
  | update
  | unregister
  | validation_success
  | validation_failure
  | auth_failure
deriving DecidableEq

/-- Row of `user_api_keys` (interface `UserApiKeyRecord`). -/
structure UserApiKeyRecord where
  discordUserId : String
  encryptedApiKey : String
  encryptionIv : String
  encryptionSalt : String
  registrationTimestamp : Nat
  lastUsedTimestamp : Nat
  lastValidatedTimestamp : Option Nat
  validationStatus : ValidationStatus
  temboUserId : Option String
  temboOrgId : Option String
  temboEmail : Option String
deriving DecidableEq

/-- Row of `auth_events` (interface `AuthEvent`); metadata is a list of
key/value pairs with possibly-undefined values. -/
structure AuthEvent where
  discordUserId : String
  eventType : AuthEventType
  timestamp : Nat
  metadata : List (String × Option String)
deriving DecidableEq

/-- The durable database state. -/
structure DbState where
  users : String → Option UserApiKeyRecord
  events : List AuthEvent

/-- Which backend statement executions throw during a run. -/
structure DbFaults where
  getUserApiKey : Bool
  saveUserApiKey : Bool
  updateUserApiKey : Bool
  deleteUserApiKey : Bool
  updateLastUsed : Bool
  updateValidationStatus : Bool
  logAuthEvent : Bool
deriving DecidableEq

/-- All statements succeed. -/
def noFaults : DbFaults :=
  { getUserApiKey := false, saveUserApiKey := false, updateUserApiKey := false,
    deleteUserApiKey := false, updateLastUsed := false, updateValidationStatus := false,
    logAuthEvent := false }

/-- Model of `DatabaseService.getUserApiKey`: single-row SELECT; a backend throw is
caught and re-thrown as the generic message. -/
def getUserApiKey (f : DbFaults) (st : DbState) (discordUserId : String) :
    Except String (Option UserApiKeyRecord) :=
  if f.getUserApiKey then Except.error "Database query failed"
  else Except.ok (st.users discordUserId)

/-- Input of `DatabaseService.saveUserApiKey`: the record without the two
timestamps the method fills in itself. -/
structure NewUserApiKey where
  discordUserId : String
  encryptedApiKey : String
  encryptionIv : String
  encryptionSalt : String
  lastValidatedTimestamp : Option Nat
  validationStatus : ValidationStatus
  temboUserId : Option String
  temboOrgId : Option String
  temboEmail : Option String
deriving DecidableEq

/-- Model of `DatabaseService.saveUserApiKey`: INSERT with both timestamps set to
`now`; a backend throw (fault, or primary-key conflict with an existing
row) becomes the generic failure. -/
def saveUserApiKey (f : DbFaults) (st : DbState) (now : Nat) (r : NewUserApiKey) :
    DbState × Except String Unit :=
  if f.saveUserApiKey ∨ (st.users r.discordUserId).isSome then
    (st, Except.error "Failed to save user API key")
  else
    let newRow : UserApiKeyRecord :=
      { discordUserId := r.discordUserId, encryptedApiKey := r.encryptedApiKey,
        encryptionIv := r.encryptionIv, encryptionSalt := r.encryptionSalt,
        registrationTimestamp := now, lastUsedTimestamp := now,
        lastValidatedTimestamp := r.lastValidatedTimestamp,
        validationStatus := r.validationStatus, temboUserId := r.temboUserId,
        temboOrgId := r.temboOrgId, temboEmail := r.temboEmail }
    ({ st with users := fun u => if u = r.discordUserId then some newRow else st.users u },
      Except.ok ())

/-- Transient `{ciphertext, iv, salt}` payload handed from the encryption
primitive to the write path. -/
structure EncPayload where
  ciphertext : String
  iv : String
  salt : String
deriving DecidableEq

/-- Model of `DatabaseService.updateUserApiKey`: replaces the ciphertext fields,
touches both timestamps and resets `validation_status` to `pending`; a
row-less UPDATE is a no-op. -/
def updateUserApiKey (f : DbFaults) (st : DbState) (now : Nat) (discordUserId : String)
    (encrypted : EncPayload) : DbState × Except String Unit :=
  if f.updateUserApiKey then (st, Except.error "Failed to update user API key")
  else
    let upd : UserApiKeyRecord → UserApiKeyRecord := fun r =>
      { r with
          encryptedApiKey := encrypted.ciphertext, encryptionIv := encrypted.iv,
          encryptionSalt := encrypted.salt, lastUsedTimestamp := now,
          lastValidatedTimestamp := some now, validationStatus := ValidationStatus.pending }
    ({ st with users := fun u =>
        if u = discordUserId then (st.users u).map upd else st.users u },
      Except.ok ())

/-- Model of `DatabaseService.deleteUserApiKey`: idempotent hard DELETE. -/
def deleteUserApiKey (f : DbFaults) (st : DbState) (discordUserId : String) :
    DbState × Except String Unit :=
  if f.deleteUserApiKey then (st, Except.error "Failed to delete user API key")
  else
    ({ st with users := fun u => if u = discordUserId then none else st.users u }
    , Except.ok ())

/-- Model of `DatabaseService.updateLastUsed`: best-effort; the catch block logs a
warning and swallows the failure, so the call never errors and a faulted
backend leaves the state unchanged. -/
def updateLastUsed (f : DbFaults) (st : DbState) (now : Nat) (discordUserId : String) :
    DbState × Except String Unit :=
  if f.updateLastUsed then (st, Except.ok ())
  else
    let upd : UserApiKeyRecord → UserApiKeyRecord := fun r => { r with lastUsedTimestamp := now }
    ({ st with users := fun u =>
        if u = discordUserId then (st.users u).map upd else st.users u },
      Except.ok ())

/-- Identity claims returned by the external validator (`TemboUserInfo`). -/
structure TemboUserInfo where
  userId : String
  orgId : String
  email : Option String
deriving DecidableEq

/-- Model of `DatabaseService.updateValidationStatus`: writes the status and
`last_validated_timestamp`, and binds `userInfo?.userId ?? null` (and org
id, email likewise), so an omitted `userInfo` writes NULL into all three
claim columns. -/
def updateValidationStatus (f : DbFaults) (st : DbState) (now : Nat) (discordUserId : String)
    (status : ValidationStatus) (userInfo : Option TemboUserInfo) :
    DbState × Except String Unit :=
  if f.updateValidationStatus then (st, Except.error "Failed to update validation status")
  else
    let upd : UserApiKeyRecord → UserApiKeyRecord := fun r =>
      { r with
          validationStatus := status, lastValidatedTimestamp := some now,
          temboUserId := userInfo.map (fun ui => ui.userId),
          temboOrgId := userInfo.map (fun ui => ui.orgId),
          temboEmail := userInfo.bind (fun ui => ui.email) }
    ({ st with users := fun u =>
        if u = discordUserId then (st.users u).map upd else st.users u },
      Except.ok ())

/-- Model of `DatabaseService.logAuthEvent`: appends to `auth_events`; the catch
block logs and continues, so the call never errors and a faulted backend
appends nothing. -/
def logAuthEvent (f : DbFaults) (st : DbState) (event : AuthEvent) :
    DbState × Except String Unit :=
  if f.logAuthEvent then (st, Except.ok ())
  else ({ st with events := st.events ++ [event] }, Except.ok ())

/-- Read-only projection returned by `DatabaseService.getUserStatus`. -/
structure UserStatusInfo where
  registered : Bool
  discordUserId : Option String
  registrationTimestamp : Option Nat
  lastUsedTimestamp : Option Nat
  lastValidatedTimestamp : Option (Option Nat)
  validationStatus : Option ValidationStatus
  temboUserId : Option (Option String)
  temboOrgId : Option (Option String)
  temboEmail : Option (Option String)
deriving DecidableEq

/-- Model of `DatabaseService.getUserStatus`: explicit "not registered" marker when
the row is absent; a failing SELECT propagates. -/
def getUserStatus (f : DbFaults) (st : DbState) (discordUserId : String) :
    Except String UserStatusInfo :=
  match getUserApiKey f st discordUserId with
  | Except.error e => Except.error e
  | Except.ok none =>
      Except.ok
        { registered := false, discordUserId := none, registrationTimestamp := none,
          lastUsedTimestamp := none, lastValidatedTimestamp := none,
          validationStatus := none, temboUserId := none, temboOrgId := none,
          temboEmail := none }
  | Except.ok (some r) =>
      Except.ok
        { registered := true, discordUserId := some r.discordUserId,
          registrationTimestamp := some r.registrationTimestamp,
          lastUsedTimestamp := some r.lastUsedTimestamp,
          lastValidatedTimestamp := some r.lastValidatedTimestamp,
          validationStatus := some r.validationStatus,
          temboUserId := some r.temboUserId, temboOrgId := some r.temboOrgId,
          temboEmail := some r.temboEmail }

/-! Authentication orchestrator (`AuthService`)

`AuthService` is constructed with the database and encryption services and
calls the Tembo API through `createTemboService(...).getCurrentUser()`.
Those collaborators are injected here as `AuthDeps`: `decrypt`/`encrypt`
capture the `EncryptionService` calls (`none` models the thrown error) and
`validator` captures the outcome of `getCurrentUser` for a given API key
(`authError` models a thrown `AuthenticationError`, the only class
`isAuthError` recognises; `otherError` every other thrown error, e.g.
network or service failures). -/

inductive ValidatorResult
  | success (userInfo : TemboUserInfo)
  | authError
  | otherError
deriving DecidableEq

structure AuthDeps where
  decrypt : EncPayload → String → Option String
  encrypt : String → String → Option EncPayload
  validator : String → ValidatorResult

/-- Result shape of `AuthService.authenticateUser`; the `TemboService`
bound to the decrypted key is represented by that key. -/
structure AuthResult where
  success : Bool
  temboServiceKey : Option String
  requiresOnboarding : Bool
  error : Option String
deriving DecidableEq

/-- Result shape of `AuthService.registerApiKey`. -/
structure RegisterResult where
  success : Bool
  userInfo : Option TemboUserInfo
  error : Option String
deriving DecidableEq

/-- Model of `createTemboService` throws exactly when the key is empty after
trimming (the thrown `TemboApiError` is not an `AuthenticationError`).
A string trims to empty exactly when every character is whitespace, so
the check is modelled over the character list. -/
def createTemboFails (apiKey : String) : Bool :=
  apiKey.toList.all (fun c => c.isWhitespace)

/-- Model of `AuthService.validateApiKey` (private): create a service for the key,
call `/me`, and require a non-empty remote user id and org id; every
failure path — service construction throwing, `AuthenticationError`, or
any other error — uniformly yields `valid: false` (`none` here). -/
def validateApiKey (validator : String → ValidatorResult) (apiKey : String) :
    Option TemboUserInfo :=
  if createTemboFails apiKey then none
  else
    match validator apiKey with
    | ValidatorResult.success userInfo =>
        if userInfo.userId.isEmpty || userInfo.orgId.isEmpty then none else some userInfo
    | ValidatorResult.authError => none
    | ValidatorResult.otherError => none

/-- The `EncryptedData` reconstructed from a stored record before
decryption. -/
def recordPayload (r : UserApiKeyRecord) : EncPayload :=
  { ciphertext := r.encryptedApiKey, iv := r.encryptionIv, salt := r.encryptionSalt }

def authUnexpectedResult : AuthResult :=
  { success := false, temboServiceKey := none, requiresOnboarding := false,
    error := some "An unexpected error occurred during authentication." }

/-- Model of `AuthService.authenticateUser`. -/
def authenticateUser (deps : AuthDeps) (f : DbFaults) (st : DbState) (now : Nat)
    (discordUserId : String) : DbState × AuthResult :=
  match getUserApiKey f st discordUserId with
  | Except.error _ => (st, authUnexpectedResult)
  | Except.ok none =>
      (st, { success := false, temboServiceKey := none, requiresOnboarding := true,
             error := none })
  | Except.ok (some record) =>
      match deps.decrypt (recordPayload record) discordUserId with
      | none =>
          let st1 := (logAuthEvent f st
            { discordUserId := discordUserId, eventType := AuthEventType.auth_failure,
              timestamp := now, metadata := [("reason", some "decryption_failed")] }).1
          (st1, { success := false, temboServiceKey := none, requiresOnboarding := false,
                  error := some "Failed to decrypt your API key. Please re-register using /setup." })
      | some decryptedApiKey =>
          if createTemboFails decryptedApiKey then
            (st, { success := false, temboServiceKey := none, requiresOnboarding := false,
                   error := some "Failed to initialize Tembo service with your API key." })
          else
            match deps.validator decryptedApiKey with
            | ValidatorResult.success _ =>
                let st1 := (updateLastUsed f st now discordUserId).1
                (st1, { success := true, temboServiceKey := some decryptedApiKey,
                        requiresOnboarding := false, error := none })
            | ValidatorResult.authError =>
                match updateValidationStatus f st now discordUserId
                    ValidationStatus.invalid none with
                | (st1, Except.error _) => (st1, authUnexpectedResult)
                | (st1, Except.ok _) =>
                    let st2 := (logAuthEvent f st1
                      { discordUserId := discordUserId,
                        eventType := AuthEventType.auth_failure, timestamp := now,
                        metadata := [("reason", some "invalid_api_key")] }).1
                    (st2, { success := false, temboServiceKey := none,
                            requiresOnboarding := false,
                            error := some "Your API key is invalid or expired. Please update it using /setup." })
            | ValidatorResult.otherError =>
                (st, { success := false, temboServiceKey := none, requiresOnboarding := false,
                       error := some "Failed to validate your API key. Please try again or use /setup to update it." })

def registerUnexpectedResult : RegisterResult :=
  { success := false, userInfo := none,
    error := some "An unexpected error occurred while registering your API key. Please try again." }

def registerRejectedResult : RegisterResult :=
  { success := false, userInfo := none,
    error := some "Invalid API key. Please check your key and try again. Make sure you copied the entire key from the Tembo dashboard." }

/-- Model of `AuthService.registerApiKey`. -/
def registerApiKey (deps : AuthDeps) (f : DbFaults) (st : DbState) (now : Nat)
    (discordUserId : String) (apiKey : String) : DbState × RegisterResult :=
  match validateApiKey deps.validator apiKey with
  | none => (st, registerRejectedResult)
  | some userInfo =>
      match deps.encrypt apiKey discordUserId with
      | none =>
          (st, { success := false, userInfo := none,
                 error := some "Failed to encrypt your API key. Please try again or contact support." })
      | some encrypted =>
          match getUserApiKey f st discordUserId with
          | Except.error _ => (st, registerUnexpectedResult)
          | Except.ok (some _) =>
              match updateUserApiKey f st now discordUserId encrypted with
              | (st1, Except.error _) => (st1, registerUnexpectedResult)
              | (st1, Except.ok _) =>
                  match updateValidationStatus f st1 now discordUserId
                      ValidationStatus.valid (some userInfo) with
                  | (st2, Except.error _) => (st2, registerUnexpectedResult)
                  | (st2, Except.ok _) =>
                      let st3 := (logAuthEvent f st2
                        { discordUserId := discordUserId,
                          eventType := AuthEventType.update, timestamp := now,
                          metadata := [("temboUserId", some userInfo.userId)] }).1
                      (st3, { success := true, userInfo := some userInfo, error := none })
          | Except.ok none =>
              let newKey : NewUserApiKey :=
                { discordUserId := discordUserId, encryptedApiKey := encrypted.ciphertext,
                  encryptionIv := encrypted.iv, encryptionSalt := encrypted.salt,
                  lastValidatedTimestamp := some now,
                  validationStatus := ValidationStatus.valid,
                  temboUserId := some userInfo.userId, temboOrgId := some userInfo.orgId,
                  temboEmail := userInfo.email }
              match saveUserApiKey f st now newKey with
              | (st1, Except.error _) => (st1, registerUnexpectedResult)
              | (st1, Except.ok _) =>
                  let st2 := (logAuthEvent f st1
                    { discordUserId := discordUserId,
                      eventType := AuthEventType.register, timestamp := now,
                      metadata := [("temboUserId", some userInfo.userId)] }).1
                  (st2, { success := true, userInfo := some userInfo, error := none })

/-- Model of `AuthService.unregisterUser`: delete then audit; a failing delete is
re-thrown with a user-facing message. -/
def unregisterUser (f : DbFaults) (st : DbState) (now : Nat) (discordUserId : String) :
    DbState × Except String Unit :=
  match deleteUserApiKey f st discordUserId with
  | (st1, Except.error _) => (st1, Except.error "Failed to unregister user. Please try again.")
  | (st1, Except.ok _) =>
      let st2 := (logAuthEvent f st1
        { discordUserId := discordUserId, eventType := AuthEventType.unregister,
          timestamp := now, metadata := [] }).1
      (st2, Except.ok ())

/-- Model of `AuthService.isUserRegistered`: passthrough lookup (a failing SELECT
propagates). -/
def isUserRegistered (f : DbFaults) (st : DbState) (discordUserId : String) :
    Except String Bool :=
  match getUserApiKey f st discordUserId with
  | Except.error e => Except.error e
  | Except.ok r => Except.ok r.isSome

/-! Concrete fixtures used by the witnesses -/

def demoUserInfo : TemboUserInfo := { userId := "U1", orgId := "O1", email := some "a@b.c" }

def demoRecord : UserApiKeyRecord :=
  { discordUserId := "u1", encryptedApiKey := "ct", encryptionIv := "iv0",
    encryptionSalt := "s0", registrationTimestamp := 5, lastUsedTimestamp := 6,
    lastValidatedTimestamp := some 7, validationStatus := ValidationStatus.valid,
    temboUserId := some "U1", temboOrgId := some "O1", temboEmail := some "a@b.c" }

def demoState : DbState :=
  { users := fun u => if u = "u1" then some demoRecord else none, events := [] }

def emptyState : DbState := { users := fun _ => none, events := [] }

def demoPayload : EncPayload := { ciphertext := "ct2", iv := "iv2", salt := "s2" }

/-- Dependencies whose encryption capability always succeeds and whose
decryption yields the key "key-1", with a chosen validator behaviour. -/
def depsWith (v : String → ValidatorResult) : AuthDeps :=
  { decrypt := fun _ _ => some "key-1", encrypt := fun _ _ => some demoPayload,
    validator := v }

/-- Dependencies whose decryption capability always fails. -/
def depsNoDecrypt : AuthDeps :=
  { decrypt := fun _ _ => none, encrypt := fun _ _ => some demoPayload,
    validator := fun _ => ValidatorResult.otherError }

/-! Claims about the orchestrator -/

/-- Both validator failure classes make `validateApiKey` report the
credential as invalid. -/
theorem validateApiKey_failure_none (validator : String → ValidatorResult) (apiKey : String)
    (h : validator apiKey = ValidatorResult.authError ∨
         validator apiKey = ValidatorResult.otherError) :
    validateApiKey validator apiKey = none := by
  unfold validateApiKey
  cases hc : createTemboFails apiKey
  · rcases h with h | h <;> simp [h]
  · simp

/-- Claim C3 counterexample: registration does not distinguish a
transient/network validation failure from an invalid credential — with a
validator that fails with a non-authentication error, `registerApiKey`
returns exactly the invalid-credential rejection, identical to the result
under a validator that rejects the credential, with no retry guidance. -/
theorem register_transient_counterexample :
    (registerApiKey (depsWith (fun _ => ValidatorResult.otherError)) noFaults emptyState
        1000 "u1" "key-1").2 = registerRejectedResult ∧
    (registerApiKey (depsWith (fun _ => ValidatorResult.otherError)) noFaults emptyState
        1000 "u1" "key-1").2
      = (registerApiKey (depsWith (fun _ => ValidatorResult.authError)) noFaults emptyState
        1000 "u1" "key-1").2 :=
  ⟨rfl, rfl⟩

/-- Claim C3 amended: in `registerApiKey` a validator failure of either
class — invalid credential or transient/network error — yields the same
invalid-credential rejection result and leaves storage untouched; only
`authenticateUser` distinguishes transient failures. -/
theorem register_validation_failure_uniform (deps : AuthDeps) (f : DbFaults) (st : DbState)
    (now : Nat) (discordUserId apiKey : String)
    (h : deps.validator apiKey = ValidatorResult.authError ∨
         deps.validator apiKey = ValidatorResult.otherError) :
    registerApiKey deps f st now discordUserId apiKey = (st, registerRejectedResult) := by
  have hv := validateApiKey_failure_none deps.validator apiKey h
  simp [registerApiKey, hv]

theorem register_validation_failure_uniform_witness :
    registerApiKey (depsWith (fun _ => ValidatorResult.otherError)) noFaults emptyState
        1000 "u1" "key-1" = (emptyState, registerRejectedResult) :=
  register_validation_failure_uniform (depsWith (fun _ => ValidatorResult.otherError))
    noFaults emptyState 1000 "u1" "key-1" (Or.inr rfl)

/-- Claim C4: for an identity with no record, `registerApiKey` under a
validator that rejects the credential returns a failure result and leaves
storage completely untouched: the state is unchanged, the identity is
still unregistered, and no audit event is appended. -/
theorem register_rejected_untouched (deps : AuthDeps) (f : DbFaults) (st : DbState)
    (now : Nat) (discordUserId apiKey : String)
    (habs : st.users discordUserId = none)
    (hrej : deps.validator apiKey = ValidatorResult.authError) :
    registerApiKey deps f st now discordUserId apiKey = (st, registerRejectedResult) ∧
    (registerApiKey deps f st now discordUserId apiKey).2.success = false ∧
    (registerApiKey deps f st now discordUserId apiKey).1.users discordUserId = none ∧
    (registerApiKey deps f st now discordUserId apiKey).1.events = st.events := by
  have hv := validateApiKey_failure_none deps.validator apiKey (Or.inl hrej)
  refine ⟨by simp [registerApiKey, hv], ?_, ?_, ?_⟩ <;>
    simp [registerApiKey, hv, registerRejectedResult, habs]

theorem register_rejected_untouched_witness :
    registerApiKey (depsWith (fun _ => ValidatorResult.authError)) noFaults emptyState
        1000 "u1" "key-1" = (emptyState, registerRejectedResult) :=
  (register_rejected_untouched (depsWith (fun _ => ValidatorResult.authError)) noFaults
    emptyState 1000 "u1" "key-1" rfl rfl).1

/-- Claim C5: for a previously-unregistered identity, `registerApiKey`
under a validator that accepts with complete claims succeeds, inserts a
record with `validationStatus = valid`, `lastValidatedTimestamp = now`
and the remote claims stored, appends a `register` audit event, and
afterwards the identity is registered with a `valid` status. -/
theorem register_fresh_success (deps : AuthDeps) (f : DbFaults) (st : DbState) (now : Nat)
    (discordUserId apiKey : String) (userInfo : TemboUserInfo) (encrypted : EncPayload)
    (hfg : f.getUserApiKey = false) (hfs : f.saveUserApiKey = false)
    (hfl : f.logAuthEvent = false)
    (habs : st.users discordUserId = none)
    (hval : deps.validator apiKey = ValidatorResult.success userInfo)
    (hkey : createTemboFails apiKey = false)
    (huid : userInfo.userId.isEmpty = false)
    (horg : userInfo.orgId.isEmpty = false)
    (henc : deps.encrypt apiKey discordUserId = some encrypted) :
    (registerApiKey deps f st now discordUserId apiKey).2
        = { success := true, userInfo := some userInfo, error := none } ∧
    (registerApiKey deps f st now discordUserId apiKey).1.users discordUserId
        = some { discordUserId := discordUserId, encryptedApiKey := encrypted.ciphertext,
                 encryptionIv := encrypted.iv, encryptionSalt := encrypted.salt,
                 registrationTimestamp := now, lastUsedTimestamp := now,
                 lastValidatedTimestamp := some now,
                 validationStatus := ValidationStatus.valid,
                 temboUserId := some userInfo.userId, temboOrgId := some userInfo.orgId,
                 temboEmail := userInfo.email } ∧
    (registerApiKey deps f st now discordUserId apiKey).1.events
        = st.events ++ [{ discordUserId := discordUserId,
                          eventType := AuthEventType.register, timestamp := now,
                          metadata := [("temboUserId", some userInfo.userId)] }] ∧
    isUserRegistered f (registerApiKey deps f st now discordUserId apiKey).1 discordUserId
        = Except.ok true ∧
    (getUserStatus f (registerApiKey deps f st now discordUserId apiKey).1
        discordUserId).map (fun s => s.validationStatus)
        = Except.ok (some ValidationStatus.valid) := by
  have hv : validateApiKey deps.validator apiKey = some userInfo := by
    unfold validateApiKey
    simp [hkey, hval, huid, horg]
  refine ⟨?_, ?_, ?_, ?_, ?_⟩ <;>
    simp [registerApiKey, hv, henc, getUserApiKey, hfg, habs, saveUserApiKey, hfs,
      logAuthEvent, hfl, isUserRegistered, getUserStatus, Except.map]

theorem register_fresh_success_witness :
    (registerApiKey (depsWith (fun _ => ValidatorResult.success demoUserInfo)) noFaults
        emptyState 1000 "u1" "key-1").2
      = { success := true, userInfo := some demoUserInfo, error := none } :=
  (register_fresh_success (depsWith (fun _ => ValidatorResult.success demoUserInfo))
    noFaults emptyState 1000 "u1" "key-1" demoUserInfo demoPayload rfl rfl rfl rfl rfl
    (by decide) rfl rfl rfl).1

/-- Claim C6: on a registered identity whose record decrypts, a validator
rejection (`AuthenticationError`) makes `authenticateUser` mark the record
`invalid`, append an `auth_failure` audit event, and return a failed
outcome instructing re-registration via /setup. -/
theorem authenticate_rejected_marks_invalid (deps : AuthDeps) (f : DbFaults) (st : DbState)
    (now : Nat) (discordUserId apiKey : String) (record : UserApiKeyRecord)
    (hfg : f.getUserApiKey = false) (hfu : f.updateValidationStatus = false)
    (hfl : f.logAuthEvent = false)
    (hrec : st.users discordUserId = some record)
    (hdec : deps.decrypt (recordPayload record) discordUserId = some apiKey)
    (hkey : createTemboFails apiKey = false)
    (hval : deps.validator apiKey = ValidatorResult.authError) :
    ((authenticateUser deps f st now discordUserId).1.users discordUserId).map
        (fun r => r.validationStatus) = some ValidationStatus.invalid ∧
    (authenticateUser deps f st now discordUserId).1.events
        = st.events ++ [{ discordUserId := discordUserId,
                          eventType := AuthEventType.auth_failure, timestamp := now,
                          metadata := [("reason", some "invalid_api_key")] }] ∧
    (authenticateUser deps f st now discordUserId).2
        = { success := false, temboServiceKey := none, requiresOnboarding := false,
            error := some "Your API key is invalid or expired. Please update it using /setup." } := by
  refine ⟨?_, ?_, ?_⟩ <;>
    simp [authenticateUser, getUserApiKey, hfg, hrec, hdec, hkey, hval,
      updateValidationStatus, hfu, logAuthEvent, hfl]

theorem authenticate_rejected_marks_invalid_witness :
    (authenticateUser (depsWith (fun _ => ValidatorResult.authError)) noFaults demoState
        2000 "u1").2
      = { success := false, temboServiceKey := none, requiresOnboarding := false,
          error := some "Your API key is invalid or expired. Please update it using /setup." } :=
  (authenticate_rejected_marks_invalid (depsWith (fun _ => ValidatorResult.authError))
    noFaults demoState 2000 "u1" "key-1" demoRecord rfl rfl rfl (by decide) rfl
    (by decide) rfl).2.2

/-- Claim C7: on a registered identity whose record decrypts, a transient
(non-authentication) validator failure makes `authenticateUser` return a
failure outcome with a retry message distinct from the rejection message,
and leaves the state — in particular the record's `validationStatus` —
completely unchanged. -/
theorem authenticate_transient_keeps_record (deps : AuthDeps) (f : DbFaults) (st : DbState)
    (now : Nat) (discordUserId apiKey : String) (record : UserApiKeyRecord)
    (hfg : f.getUserApiKey = false)
    (hrec : st.users discordUserId = some record)
    (hdec : deps.decrypt (recordPayload record) discordUserId = some apiKey)
    (hkey : createTemboFails apiKey = false)
    (hval : deps.validator apiKey = ValidatorResult.otherError) :
    authenticateUser deps f st now discordUserId
        = (st, { success := false, temboServiceKey := none, requiresOnboarding := false,
                 error := some "Failed to validate your API key. Please try again or use /setup to update it." }) ∧
    (authenticateUser deps f st now discordUserId).1.users discordUserId = some record ∧
    (authenticateUser deps f st now discordUserId).2.error
        ≠ some "Your API key is invalid or expired. Please update it using /setup." := by
  have hmain : authenticateUser deps f st now discordUserId
      = (st, { success := false, temboServiceKey := none, requiresOnboarding := false,
               error := some "Failed to validate your API key. Please try again or use /setup to update it." }) := by
    simp [authenticateUser, getUserApiKey, hfg, hrec, hdec, hkey, hval]
  refine ⟨hmain, ?_, ?_⟩ <;> simp [hmain, hrec]

theorem authenticate_transient_keeps_record_witness :
    authenticateUser (depsWith (fun _ => ValidatorResult.otherError)) noFaults demoState
        2000 "u1"
      = (demoState,
         { success := false, temboServiceKey := none, requiresOnboarding := false,
           error := some "Failed to validate your API key. Please try again or use /setup to update it." }) :=
  (authenticate_transient_keeps_record (depsWith (fun _ => ValidatorResult.otherError))
    noFaults demoState 2000 "u1" "key-1" demoRecord rfl (by decide) rfl
    (by decide) rfl).1

/-- Claim C8: on a registered identity whose stored payload fails to
decrypt, `authenticateUser` returns a failed outcome instructing
re-registration, appends an `auth_failure` audit event, and never invokes
the external validation capability: the run is identical under every
validator. -/
theorem authenticate_undecryptable (deps : AuthDeps) (f : DbFaults) (st : DbState)
    (now : Nat) (discordUserId : String) (record : UserApiKeyRecord)
    (hfg : f.getUserApiKey = false) (hfl : f.logAuthEvent = false)
    (hrec : st.users discordUserId = some record)
    (hdec : deps.decrypt (recordPayload record) discordUserId = none) :
    (authenticateUser deps f st now discordUserId).2
        = { success := false, temboServiceKey := none, requiresOnboarding := false,
            error := some "Failed to decrypt your API key. Please re-register using /setup." } ∧
    (authenticateUser deps f st now discordUserId).1.events
        = st.events ++ [{ discordUserId := discordUserId,
                          eventType := AuthEventType.auth_failure, timestamp := now,
                          metadata := [("reason", some "decryption_failed")] }] ∧
    ∀ v : String → ValidatorResult,
      authenticateUser { decrypt := deps.decrypt, encrypt := deps.encrypt, validator := v }
          f st now discordUserId
        = authenticateUser deps f st now discordUserId := by
  refine ⟨?_, ?_, fun v => ?_⟩ <;>
    simp [authenticateUser, getUserApiKey, hfg, hrec, hdec, logAuthEvent, hfl]

theorem authenticate_undecryptable_witness :
    (authenticateUser depsNoDecrypt noFaults demoState 2000 "u1").2
      = { success := false, temboServiceKey := none, requiresOnboarding := false,
          error := some "Failed to decrypt your API key. Please re-register using /setup." } :=
  (authenticate_undecryptable depsNoDecrypt noFaults demoState 2000 "u1" demoRecord
    rfl rfl (by decide) rfl).1

/-- Claim C10: `updateValidationStatus` with `userInfo` omitted binds NULL
for all three remote-claim columns, overwriting any stored values; in
particular, when `authenticateUser` marks a record invalid after a
validator rejection it erases the previously stored claims. -/
theorem updateValidationStatus_nullifies_claims (deps : AuthDeps) (f : DbFaults)
    (st : DbState) (now : Nat) (discordUserId apiKey : String) (record : UserApiKeyRecord)
    (hfg : f.getUserApiKey = false) (hfu : f.updateValidationStatus = false)
    (hfl : f.logAuthEvent = false)
    (hrec : st.users discordUserId = some record)
    (hdec : deps.decrypt (recordPayload record) discordUserId = some apiKey)
    (hkey : createTemboFails apiKey = false)
    (hval : deps.validator apiKey = ValidatorResult.authError) :
    (updateValidationStatus f st now discordUserId ValidationStatus.invalid none).1.users
        discordUserId
      = some { record with
          validationStatus := ValidationStatus.invalid, lastValidatedTimestamp := some now,
          temboUserId := none, temboOrgId := none, temboEmail := none } ∧
    (authenticateUser deps f st now discordUserId).1.users discordUserId
      = some { record with
          validationStatus := ValidationStatus.invalid, lastValidatedTimestamp := some now,
          temboUserId := none, temboOrgId := none, temboEmail := none } := by
  constructor
  · simp [updateValidationStatus, hfu, hrec]
  · simp [authenticateUser, getUserApiKey, hfg, hrec, hdec, hkey, hval,
      updateValidationStatus, hfu, logAuthEvent, hfl]

theorem updateValidationStatus_nullifies_claims_witness :
    (updateValidationStatus noFaults demoState 2000 "u1" ValidationStatus.invalid
        none).1.users "u1"
      = some { demoRecord with
          validationStatus := ValidationStatus.invalid, lastValidatedTimestamp := some 2000,
          temboUserId := none, temboOrgId := none, temboEmail := none } :=
  (updateValidationStatus_nullifies_claims (depsWith (fun _ => ValidatorResult.authError))
    noFaults demoState 2000 "u1" "key-1" demoRecord rfl rfl rfl (by decide) rfl
    (by decide) rfl).1

/-! Changing only the two best-effort fault flags leaves every critical
database operation untouched. -/

theorem mask_getUserApiKey (f : DbFaults) (b1 b2 : Bool) (st : DbState) (uid : String) :
    getUserApiKey { f with updateLastUsed := b1, logAuthEvent := b2 } st uid
      = getUserApiKey f st uid := rfl

theorem mask_saveUserApiKey (f : DbFaults) (b1 b2 : Bool) (st : DbState) (now : Nat)
    (r : NewUserApiKey) :
    saveUserApiKey { f with updateLastUsed := b1, logAuthEvent := b2 } st now r
      = saveUserApiKey f st now r := rfl

theorem mask_updateUserApiKey (f : DbFaults) (b1 b2 : Bool) (st : DbState) (now : Nat)
    (uid : String) (e : EncPayload) :
    updateUserApiKey { f with updateLastUsed := b1, logAuthEvent := b2 } st now uid e
      = updateUserApiKey f st now uid e := rfl

theorem mask_deleteUserApiKey (f : DbFaults) (b1 b2 : Bool) (st : DbState) (uid : String) :
    deleteUserApiKey { f with updateLastUsed := b1, logAuthEvent := b2 } st uid
      = deleteUserApiKey f st uid := rfl

theorem mask_updateValidationStatus (f : DbFaults) (b1 b2 : Bool) (st : DbState) (now : Nat)
    (uid : String) (status : ValidationStatus) (ui : Option TemboUserInfo) :
    updateValidationStatus { f with updateLastUsed := b1, logAuthEvent := b2 } st now uid
        status ui
      = updateValidationStatus f st now uid status ui := rfl

/-- Claim C9: the best-effort writes — audit events (`logAuthEvent`) and
the last-used touch (`updateLastUsed`) — never propagate a failure: they
always return success whatever the backend does, and the outcome of a
parent `registerApiKey`, `authenticateUser` or `unregisterUser` run is
unchanged under any behaviour of those two writes. -/
theorem best_effort_writes_never_propagate :
    (∀ (f : DbFaults) (st : DbState) (now : Nat) (uid : String),
        (updateLastUsed f st now uid).2 = Except.ok ()) ∧
    (∀ (f : DbFaults) (st : DbState) (e : AuthEvent),
        (logAuthEvent f st e).2 = Except.ok ()) ∧
    (∀ (deps : AuthDeps) (f : DbFaults) (st : DbState) (now : Nat) (uid : String)
        (b1 b2 : Bool),
        (authenticateUser deps { f with updateLastUsed := b1, logAuthEvent := b2 }
            st now uid).2
          = (authenticateUser deps f st now uid).2) ∧
    (∀ (deps : AuthDeps) (f : DbFaults) (st : DbState) (now : Nat) (uid apiKey : String)
        (b1 b2 : Bool),
        (registerApiKey deps { f with updateLastUsed := b1, logAuthEvent := b2 }
            st now uid apiKey).2
          = (registerApiKey deps f st now uid apiKey).2) ∧
    (∀ (f : DbFaults) (st : DbState) (now : Nat) (uid : String) (b1 b2 : Bool),
        (unregisterUser { f with updateLastUsed := b1, logAuthEvent := b2 } st now uid).2
          = (unregisterUser f st now uid).2) := by
  refine ⟨?_, ?_, ?_, ?_, ?_⟩
  · intro f st now uid
    unfold updateLastUsed
    split <;> rfl
  · intro f st e
    unfold logAuthEvent
    split <;> rfl
  · intro deps f st now uid b1 b2
    unfold authenticateUser
    rw [mask_getUserApiKey]
    cases hG : getUserApiKey f st uid with
    | error e => rfl
    | ok ro =>
      cases ro with
      | none => rfl
      | some record =>
        dsimp only
        cases hD : deps.decrypt (recordPayload record) uid with
        | none => rfl
        | some apiKey =>
          dsimp only
          cases hC : createTemboFails apiKey
          · cases hV : deps.validator apiKey with
            | success ui => rfl
            | authError =>
              rw [mask_updateValidationStatus]
              rcases hU : updateValidationStatus f st now uid ValidationStatus.invalid none
                with ⟨st1, r1⟩
              cases r1 <;> rfl
            | otherError => rfl
          · rfl
  · intro deps f st now uid apiKey b1 b2
    unfold registerApiKey
    cases hV : validateApiKey deps.validator apiKey with
    | none => rfl
    | some userInfo =>
      dsimp only
      cases hE : deps.encrypt apiKey uid with
      | none => rfl
      | some encrypted =>
        dsimp only
        rw [mask_getUserApiKey]
        cases hG : getUserApiKey f st uid with
        | error e => rfl
        | ok ro =>
          cases ro with
          | some old =>
            dsimp only
            rw [mask_updateUserApiKey]
            rcases hU1 : updateUserApiKey f st now uid encrypted with ⟨st1, r1⟩
            cases r1 with
            | error e => rfl
            | ok v =>
              dsimp only
              rw [mask_updateValidationStatus]
              rcases hU2 : updateValidationStatus f st1 now uid ValidationStatus.valid
                  (some userInfo) with ⟨st2, r2⟩
              cases r2 <;> rfl
          | none =>
            dsimp only
            rw [mask_saveUserApiKey]
            rcases hS : saveUserApiKey f st now
                { discordUserId := uid, encryptedApiKey := encrypted.ciphertext,
                  encryptionIv := encrypted.iv, encryptionSalt := encrypted.salt,
                  lastValidatedTimestamp := some now,
                  validationStatus := ValidationStatus.valid,
                  temboUserId := some userInfo.userId, temboOrgId := some userInfo.orgId,
                  temboEmail := userInfo.email } with ⟨st1, r1⟩
            cases r1 <;> rfl
  · intro f st now uid b1 b2
    unfold unregisterUser
    rw [mask_deleteUserApiKey]
    rcases hDel : deleteUserApiKey f st uid with ⟨st1, r1⟩
    cases r1 <;> rfl

end TemboBot
